import Mathlib

/-!
Verification of the contact/weather sensor plotter's statistics core.

Timestamps are modelled as natural numbers of microseconds since a fixed
epoch (the exact resolution of timezone-naive Python `datetime` values),
so a calendar date is the number of whole days since the epoch.  Durations
and gaps, which the source computes via `timedelta.total_seconds()` followed
by float division, are modelled as exact rationals: at microsecond input
resolution every comparison the source performs (`> 24` hours,
`<= 1440` minutes) is decided identically by the float and the rational.
-/

namespace ContactPlotter

/-- Microseconds in one second. -/
def usPerSec : Nat := 1000000

/-- Microseconds in one calendar day. -/
def usPerDay : Nat := 86400000000

/-- One row of a contact stream: a timestamp (`Date` column, microseconds
since the epoch) and a binary state (`State` column, 1 = Open, 0 = Closed). -/
structure Obs where
  Date : Nat
  State : Nat
deriving DecidableEq, Repr

/-- `df["Date"].dt.date`: the calendar date of a timestamp, as a count of
whole days since the epoch. -/
def dateOnly (t : Nat) : Nat := t / usPerDay

/-- The mutable working state of the row scan in `calculate_statistics`:
the `open_sessions` counter, the `session_durations` list (minutes), the
`daily_open_times` dict (insertion-ordered association list from calendar
date to accumulated open minutes), and the `open_time` variable
(`None` = idle, `some t` = a session pending since `t`). -/
structure ScanState where
  open_sessions : Nat
  session_durations : List ℚ
  daily_open_times : List (Nat × ℚ)
  open_time : Option Nat
deriving DecidableEq, Repr

/-- Initial scan state: counter 0, no durations, empty dict, `open_time = None`. -/
def initScan : ScanState := ⟨0, [], [], none⟩

/-- `daily_open_times[day] += duration` with `daily_open_times.setdefault(day, 0)`
semantics on an insertion-ordered association list (Python dicts preserve
insertion order). -/
def addToDay : List (Nat × ℚ) → Nat → ℚ → List (Nat × ℚ)
  | [], d, v => [(d, v)]
  | (k, x) :: rest, d, v =>
      if k = d then (k, x + v) :: rest else (k, x) :: addToDay rest d v

/-- One iteration of the `for i, row in df.iterrows()` loop of
`calculate_statistics` (src/main.py lines 18-36).  On `State == 1`: if a
session is pending and the gap exceeds 24 hours, reset `open_time` to `None`
and `continue` (so no new session is opened); if a session is pending with a
gap of at most 24 hours, nothing changes; if idle, open a session and
increment the counter.  On `State == 0` with a pending session: compute the
duration in minutes; if it is at most 1440, record it and accumulate it into
the bucket of the close date; either way return to idle. -/
def scanStep (st : ScanState) (row : Obs) : ScanState :=
  if row.State = 1 then
    match st.open_time with
    | some ot =>
        let time_gap : ℚ := (((row.Date : ℚ) - (ot : ℚ)) / 1000000) / 3600
        if time_gap > 24 then { st with open_time := none } else st
    | none =>
        { st with open_time := some row.Date,
                  open_sessions := st.open_sessions + 1 }
  else if row.State = 0 then
    match st.open_time with
    | some ot =>
        let duration : ℚ := (((row.Date : ℚ) - (ot : ℚ)) / 1000000) / 60
        if duration ≤ 1440 then
          { st with
              session_durations := st.session_durations ++ [duration],
              daily_open_times := addToDay st.daily_open_times (dateOnly row.Date) duration,
              open_time := none }
        else { st with open_time := none }
    | none => st
  else st

/-- The whole row loop of `calculate_statistics` on an already-filtered frame. -/
def runScan (df : List Obs) : ScanState := df.foldl scanStep initScan

/-- `df[(df["Date"] >= start) & (df["Date"] <= end)]`: keep rows inside the
closed interval, preserving order. -/
def filterRange (df : List Obs) (s e : Nat) : List Obs :=
  df.filter (fun o => decide (s ≤ o.Date) && decide (o.Date ≤ e))

/-- `df["Date"].min()` (0 on an empty frame, a case no analysed path reaches). -/
def minDate : List Obs → Nat
  | [] => 0
  | o :: rest => (rest.map Obs.Date).foldl Nat.min o.Date

/-- `df["Date"].max()` (0 on an empty frame, a case no analysed path reaches). -/
def maxDate : List Obs → Nat
  | [] => 0
  | o :: rest => (rest.map Obs.Date).foldl Nat.max o.Date

/-- Lines 7-8 of `calculate_statistics`: if either bound is `None`, both are
replaced by the stream's minimum and maximum timestamps. -/
def resolveBounds (df : List Obs) : Option Nat → Option Nat → Nat × Nat
  | some s, some e => (s, e)
  | _, _ => (minDate df, maxDate df)

/-- The summary dict returned by `calculate_statistics`.  `window_from` and
`window_to` keep the resolved bounds themselves (the source renders them with
`strftime`, pure formatting).  `mean_open_minutes`/`mean_closed_minutes` are
`none` when pandas would produce `NaN` (mean of an empty column). -/
structure StatisticsSummary where
  accessory_name : String
  window_from : Nat
  window_to : Nat
  number_of_days : Int
  mean_open_minutes : Option ℚ
  mean_closed_minutes : Option ℚ
  mean_open_sessions : ℚ
  mean_open_time_per_session : ℚ
deriving DecidableEq, Repr

/-- `df_daily` rows with the derived column:
`(Date_Only, Open_Duration, Closed_Duration = 1440 - Open_Duration)`. -/
def dailyBuckets (st : ScanState) : List (Nat × ℚ × ℚ) :=
  st.daily_open_times.map (fun p => (p.1, p.2, 1440 - p.2))

/-- Pandas `Series.mean()`: `none` (NaN) on an empty column. -/
def qmean (l : List ℚ) : Option ℚ :=
  if l.isEmpty then none else some (l.sum / (l.length : ℚ))

/-- The scan `calculate_statistics` performs: resolve the bounds, filter the
frame to them, and run the row loop. -/
def statsScan (df : List Obs) (start_date end_date : Option Nat) : ScanState :=
  let se := resolveBounds df start_date end_date
  runScan (filterRange df se.1 se.2)

/-- `calculate_statistics(df, start_date, end_date, accessory_name)`
(src/main.py lines 6-55). -/
def calculate_statistics (df : List Obs) (start_date end_date : Option Nat)
    (accessory_name : String) : StatisticsSummary :=
  let se := resolveBounds df start_date end_date
  let st := statsScan df start_date end_date
  let df_daily := dailyBuckets st
  let mean_open_sessions : ℚ :=
    if 0 < df_daily.length then (st.open_sessions : ℚ) / (df_daily.length : ℚ) else 0
  let mean_open_time_per_session : ℚ :=
    if st.session_durations.isEmpty then 0
    else st.session_durations.sum / (st.session_durations.length : ℚ)
  { accessory_name := accessory_name
    window_from := se.1
    window_to := se.2
    number_of_days := Int.fdiv ((se.2 : Int) - (se.1 : Int)) (usPerDay : Int) + 1
    mean_open_minutes := qmean (df_daily.map (fun b => b.2.1))
    mean_closed_minutes := qmean (df_daily.map (fun b => b.2.2))
    mean_open_sessions := mean_open_sessions
    mean_open_time_per_session := mean_open_time_per_session }

/-- `start_date.replace(hour=0, minute=0, second=0, microsecond=0)`. -/
def dayStart (t : Nat) : Nat := (t / usPerDay) * usPerDay

/-- `end_date.replace(hour=23, minute=59, second=59, microsecond=999999)`. -/
def dayEnd (t : Nat) : Nat := (t / usPerDay) * usPerDay + (usPerDay - 1)

/-- `df.iloc[-1]["State"]` (default 0 on an empty frame, never consulted there). -/
def lastState (df : List Obs) : Nat := ((df.getLast?).getD ⟨0, 0⟩).State

/-- `add_fake_states(df, start_date, end_date)` (src/main.py lines 125-142).
Returns `none` where the Python would raise: when `start_date` is present but
`end_date` is `None`, line 130 calls `.replace` on `None`. -/
def add_fake_states (df : List Obs) : Option Nat → Option Nat → Option (List Obs)
  | none, _ => some df
  | some _, none => none
  | some sd, some ed =>
      if df.isEmpty then some df
      else some (⟨dayStart sd, lastState df⟩ :: (df ++ [⟨dayEnd ed, lastState df⟩]))

/-- `filter_data_by_time(df, start_date, end_date)` (src/main.py lines 144-147). -/
def filter_data_by_time (df : List Obs) : Option Nat → Option Nat → List Obs
  | some s, some e => filterRange df s e
  | _, _ => df

/-- The statistics actually computed for a contact file inside
`plot_multiple_data` (src/main.py lines 156-172): the frame is filtered, then
`add_fake_states` is applied, and `calculate_statistics` is called on the
resulting augmented frame. -/
def plotMultipleContactStats (df : List Obs) (start_date end_date : Option Nat)
    (name : String) : Option StatisticsSummary :=
  (add_fake_states (filter_data_by_time df start_date end_date) start_date end_date).map
    (fun d2 => calculate_statistics d2 start_date end_date name)

/-- The statistics computed for a contact file inside `plot_contact_data`
(src/main.py lines 63-87): the frame is filtered (when both bounds are
present) and `calculate_statistics` is called on it directly. -/
def plotContactStats (df : List Obs) (start_date end_date : Option Nat)
    (name : String) : StatisticsSummary :=
  match start_date, end_date with
  | some s, some e => calculate_statistics (filterRange df s e) start_date end_date name
  | _, _ => calculate_statistics df start_date end_date name

/-- The overall-statistics dict: column means of the four numeric columns
left after dropping `Accessory Name`, `From`, `To`, `Number of Days`. -/
structure OverallStats where
  mean_open_minutes : Option ℚ
  mean_closed_minutes : Option ℚ
  mean_open_sessions : ℚ
  mean_open_time_per_session : ℚ
deriving DecidableEq, Repr

/-- Pandas column mean with `skipna=True` over a column that may hold NaNs. -/
def colMeanOpt (xs : List (Option ℚ)) : Option ℚ := qmean (xs.filterMap id)

/-- The `if len(all_stats) > 1: pd.DataFrame(all_stats).drop(columns=[...]).mean()`
reduction (src/main.py lines 99-103 and 185-189); `none` when fewer than two
summaries were collected. -/
def overall_stats (l : List StatisticsSummary) : Option OverallStats :=
  if 1 < l.length then
    some { mean_open_minutes := colMeanOpt (l.map StatisticsSummary.mean_open_minutes)
           mean_closed_minutes := colMeanOpt (l.map StatisticsSummary.mean_closed_minutes)
           mean_open_sessions :=
             (l.map StatisticsSummary.mean_open_sessions).sum / (l.length : ℚ)
           mean_open_time_per_session :=
             (l.map StatisticsSummary.mean_open_time_per_session).sum / (l.length : ℚ) }
  else none

/-! ### Bridging lemmas: the source's rational comparisons, in integer microseconds -/

/-- The 24-hour gap test of line 22: `(b - a).total_seconds()/3600 > 24` holds
iff the gap exceeds 86400000000 microseconds. -/
lemma gap_gt_iff (a b : Nat) :
    (24 : ℚ) < (((b : ℚ) - (a : ℚ)) / 1000000) / 3600 ↔ a + 86400000000 < b := by
  rw [div_div, lt_div_iff₀ (by norm_num : (0 : ℚ) < 1000000 * 3600)]
  constructor
  · intro h
    have h2 : (a : ℚ) + 86400000000 < (b : ℚ) := by linarith
    exact_mod_cast h2
  · intro h
    have h2 : (a : ℚ) + 86400000000 < (b : ℚ) := by exact_mod_cast h
    linarith

/-- The realism test of line 30: `(b - a).total_seconds()/60 <= 1440` holds
iff the duration is at most 86400000000 microseconds. -/
lemma dur_le_iff (a b : Nat) :
    (((b : ℚ) - (a : ℚ)) / 1000000) / 60 ≤ 1440 ↔ b ≤ a + 86400000000 := by
  rw [div_div, div_le_iff₀ (by norm_num : (0 : ℚ) < 1000000 * 60)]
  constructor
  · intro h
    have h2 : (b : ℚ) ≤ (a : ℚ) + 86400000000 := by linarith
    exact_mod_cast h2
  · intro h
    have h2 : (b : ℚ) ≤ (a : ℚ) + 86400000000 := by exact_mod_cast h
    linarith

/-- A close at or after the open yields a nonnegative duration. -/
lemma dur_nonneg (a b : Nat) (h : a ≤ b) :
    0 ≤ (((b : ℚ) - (a : ℚ)) / 1000000) / 60 := by
  have h2 : (a : ℚ) ≤ (b : ℚ) := by exact_mod_cast h
  have h3 : (0 : ℚ) ≤ (b : ℚ) - (a : ℚ) := by linarith
  positivity

/-! ### Characterization of each branch of the scan step -/

/-- `State == 1` while idle: open a session, increment the counter. -/
lemma scanStep_open_idle (st : ScanState) (row : Obs) (h1 : row.State = 1)
    (h2 : st.open_time = none) :
    scanStep st row
      = { st with open_time := some row.Date, open_sessions := st.open_sessions + 1 } := by
  simp [scanStep, h1, h2]

/-- `State == 1` while pending with a gap over 24 hours: drop the pending
session and open no new one (the `continue` of line 24). -/
lemma scanStep_open_pending_far (st : ScanState) (row : Obs) (ot : Nat)
    (h1 : row.State = 1) (h2 : st.open_time = some ot)
    (h3 : ot + 86400000000 < row.Date) :
    scanStep st row = { st with open_time := none } := by
  have hg := (gap_gt_iff ot row.Date).mpr h3
  simp [scanStep, h1, h2, hg]

/-- `State == 1` while pending with a gap of at most 24 hours: nothing changes. -/
lemma scanStep_open_pending_near (st : ScanState) (row : Obs) (ot : Nat)
    (h1 : row.State = 1) (h2 : st.open_time = some ot)
    (h3 : row.Date ≤ ot + 86400000000) :
    scanStep st row = st := by
  have hg : ¬ ((24 : ℚ) < (((row.Date : ℚ) - (ot : ℚ)) / 1000000) / 3600) := by
    rw [gap_gt_iff]; omega
  simp [scanStep, h1, h2, hg]

/-- `State == 0` while pending with a realistic duration: emit the session and
accumulate it into the close date's bucket. -/
lemma scanStep_close_pending_ok (st : ScanState) (row : Obs) (ot : Nat)
    (h1 : row.State = 0) (h2 : st.open_time = some ot)
    (h3 : row.Date ≤ ot + 86400000000) :
    scanStep st row
      = { st with
            session_durations :=
              st.session_durations ++ [(((row.Date : ℚ) - (ot : ℚ)) / 1000000) / 60],
            daily_open_times :=
              addToDay st.daily_open_times (dateOnly row.Date)
                ((((row.Date : ℚ) - (ot : ℚ)) / 1000000) / 60),
            open_time := none } := by
  have hd := (dur_le_iff ot row.Date).mpr h3
  simp [scanStep, h1, h2, hd]

/-- `State == 0` while pending with a duration over 1440 minutes: discard
silently, return to idle. -/
lemma scanStep_close_pending_long (st : ScanState) (row : Obs) (ot : Nat)
    (h1 : row.State = 0) (h2 : st.open_time = some ot)
    (h3 : ot + 86400000000 < row.Date) :
    scanStep st row = { st with open_time := none } := by
  have hd : ¬ ((((row.Date : ℚ) - (ot : ℚ)) / 1000000) / 60 ≤ 1440) := by
    rw [dur_le_iff]; omega
  simp [scanStep, h1, h2, hd]

/-- `State == 0` while idle: no-op. -/
lemma scanStep_close_idle (st : ScanState) (row : Obs) (h1 : row.State = 0)
    (h2 : st.open_time = none) :
    scanStep st row = st := by
  simp [scanStep, h1, h2]

/-- A state that is neither 0 nor 1: no-op. -/
lemma scanStep_other (st : ScanState) (row : Obs) (h1 : row.State ≠ 1)
    (h2 : row.State ≠ 0) :
    scanStep st row = st := by
  simp [scanStep, h1, h2]

/-! ### Fold invariants of the scan -/

/-- Scanning a stream that is sorted ascending, starting from a state whose
recorded durations already lie in `[0, 1440]` and whose pending open (if any)
is no later than every remaining row, only ever records durations in
`[0, 1440]`. -/
lemma scan_durations_bounded (l : List Obs) : ∀ st : ScanState,
    List.Pairwise (fun a b : Obs => a.Date ≤ b.Date) l →
    (∀ d ∈ st.session_durations, 0 ≤ d ∧ d ≤ 1440) →
    (∀ ot : Nat, st.open_time = some ot → ∀ o ∈ l, ot ≤ o.Date) →
    ∀ d ∈ (List.foldl scanStep st l).session_durations, 0 ≤ d ∧ d ≤ 1440 := by
  induction l with
  | nil => intro st _ hst _ d hd; exact hst d hd
  | cons x xs ih =>
    intro st hpw hst hot
    have hx : ∀ o ∈ xs, x.Date ≤ o.Date := (List.pairwise_cons.mp hpw).1
    have hpw2 : List.Pairwise (fun a b : Obs => a.Date ≤ b.Date) xs :=
      (List.pairwise_cons.mp hpw).2
    rw [List.foldl_cons]
    by_cases h1 : x.State = 1
    · rcases hop : st.open_time with _ | ot
      · rw [scanStep_open_idle st x h1 hop]
        refine ih _ hpw2 hst ?_
        intro ot2 hs o ho
        have : x.Date = ot2 := by simpa using hs
        exact this ▸ hx o ho
      · by_cases hfar : ot + 86400000000 < x.Date
        · rw [scanStep_open_pending_far st x ot h1 hop hfar]
          refine ih _ hpw2 hst ?_
          intro ot2 hs
          simp at hs
        · rw [scanStep_open_pending_near st x ot h1 hop (by omega)]
          refine ih _ hpw2 hst ?_
          intro ot2 hs o ho
          exact hot ot2 hs o (List.mem_cons_of_mem x ho)
    · by_cases h0 : x.State = 0
      · rcases hop : st.open_time with _ | ot
        · rw [scanStep_close_idle st x h0 hop]
          refine ih _ hpw2 hst ?_
          intro ot2 hs
          rw [hop] at hs
          simp at hs
        · have hole : ot ≤ x.Date := hot ot hop x (List.mem_cons_self x xs)
          by_cases hdur : x.Date ≤ ot + 86400000000
          · rw [scanStep_close_pending_ok st x ot h0 hop hdur]
            refine ih _ hpw2 ?_ ?_
            · intro d hd
              rcases List.mem_append.mp hd with hd2 | hd2
              · exact hst d hd2
              · have : d = (((x.Date : ℚ) - (ot : ℚ)) / 1000000) / 60 := by simpa using hd2
                subst this
                exact ⟨dur_nonneg ot x.Date hole, (dur_le_iff ot x.Date).mpr hdur⟩
            · intro ot2 hs
              simp at hs
          · rw [scanStep_close_pending_long st x ot h0 hop (by omega)]
            refine ih _ hpw2 hst ?_
            intro ot2 hs
            simp at hs
      · rw [scanStep_other st x h1 h0]
        refine ih _ hpw2 hst ?_
        intro ot2 hs o ho
        exact hot ot2 hs o (List.mem_cons_of_mem x ho)

/-- Accumulating `v` into a day bucket raises the total of all buckets by `v`. -/
lemma addToDay_snd_sum (m : List (Nat × ℚ)) (d : Nat) (v : ℚ) :
    ((addToDay m d v).map Prod.snd).sum = (m.map Prod.snd).sum + v := by
  induction m with
  | nil => simp [addToDay]
  | cons p rest ih =>
    obtain ⟨k, x⟩ := p
    by_cases h : k = d
    · simp only [addToDay, if_pos h, List.map_cons, List.sum_cons]
      ring
    · simp only [addToDay, if_neg h, List.map_cons, List.sum_cons, ih]
      ring

/-- One scan step preserves the difference between the total bucketed minutes
and the total recorded session durations. -/
lemma scanStep_sum_invariant (st : ScanState) (row : Obs) :
    ((scanStep st row).daily_open_times.map Prod.snd).sum
        - (scanStep st row).session_durations.sum
      = (st.daily_open_times.map Prod.snd).sum - st.session_durations.sum := by
  by_cases h1 : row.State = 1
  · rcases hop : st.open_time with _ | ot
    · rw [scanStep_open_idle st row h1 hop]
    · by_cases hfar : ot + 86400000000 < row.Date
      · rw [scanStep_open_pending_far st row ot h1 hop hfar]
      · rw [scanStep_open_pending_near st row ot h1 hop (by omega)]
  · by_cases h0 : row.State = 0
    · rcases hop : st.open_time with _ | ot
      · rw [scanStep_close_idle st row h0 hop]
      · by_cases hdur : row.Date ≤ ot + 86400000000
        · rw [scanStep_close_pending_ok st row ot h0 hop hdur]
          simp only [addToDay_snd_sum, List.sum_append, List.sum_cons, List.sum_nil]
          ring
        · rw [scanStep_close_pending_long st row ot h0 hop (by omega)]
    · rw [scanStep_other st row h1 h0]

/-- The whole scan preserves that difference. -/
lemma foldl_sum_invariant (l : List Obs) : ∀ st : ScanState,
    ((List.foldl scanStep st l).daily_open_times.map Prod.snd).sum
        - (List.foldl scanStep st l).session_durations.sum
      = (st.daily_open_times.map Prod.snd).sum - st.session_durations.sum := by
  induction l with
  | nil => intro st; rfl
  | cons x xs ih =>
    intro st
    rw [List.foldl_cons, ih, scanStep_sum_invariant]

/-! ### Claims -/

/-- C2 counterexample: with no requested window and a stream running from
day 0 at 23:00 to day 1 at 01:00, the substituted bounds differ by two hours,
so the code reports `Number of Days = 1`, while the claimed formula
`(window_end.date − window_start.date) + 1` gives 2. -/
theorem c2_counterexample :
    (calculate_statistics [⟨82800000000, 0⟩, ⟨90000000000, 0⟩] none none "x").number_of_days = 1 ∧
    ((dateOnly 90000000000 : Nat) : Int) - ((dateOnly 82800000000 : Nat) : Int) + 1 = 2 := by
  constructor
  · norm_num [calculate_statistics, resolveBounds, minDate, maxDate, usPerDay, Int.fdiv]
  · norm_num [dateOnly, usPerDay]

/-- C2 (amended): the summary's `Number of Days` is
`floor((window_end − window_start) / 24h) + 1` — the floor of the raw
timestamp difference in whole 24-hour periods, as computed by
`(end_date - start_date).days + 1` — which coincides with the inclusive
calendar-date difference `(window_end.date − window_start.date) + 1` exactly
when the end bound's time of day is not earlier than the start bound's
(in particular for day-aligned windows), and undercounts it by one
otherwise; it is independent of how many DailyBuckets were produced. -/
theorem c2_number_of_days (df : List Obs) (name : String) (s e : Nat) (h : s ≤ e) :
    ((calculate_statistics df (some s) (some e) name).number_of_days
        = (((e - s) / usPerDay : Nat) : Int) + 1) ∧
    (s % usPerDay ≤ e % usPerDay →
      (calculate_statistics df (some s) (some e) name).number_of_days
        = ((dateOnly e : Nat) : Int) - ((dateOnly s : Nat) : Int) + 1) := by
  have hnd : (calculate_statistics df (some s) (some e) name).number_of_days
      = Int.fdiv ((e : Int) - (s : Int)) (usPerDay : Int) + 1 := rfl
  constructor
  · rw [hnd, Int.fdiv_eq_ediv _ (by norm_num [usPerDay])]
    unfold usPerDay
    omega
  · intro hmod
    rw [hnd, Int.fdiv_eq_ediv _ (by norm_num [usPerDay])]
    unfold dateOnly
    unfold usPerDay at hmod ⊢
    omega

/-- C2 witness: a concrete day-aligned window. -/
theorem c2_number_of_days_witness :
    (0 : Nat) ≤ 90000000000 ∧
    (calculate_statistics [] (some 0) (some 90000000000) "x").number_of_days
      = (((90000000000 - 0) / usPerDay : Nat) : Int) + 1 :=
  ⟨by decide, (c2_number_of_days [] "x" 0 90000000000 (by decide)).1⟩

/-- C3 counterexample: the stream [(T,1),(T,0)] with a timestamp tie is sorted
ascending and binary, yet the extraction emits a session of duration exactly
0 minutes, contradicting the claimed strict positivity. -/
theorem c3_counterexample :
    (0 : ℚ) ∈ (statsScan [⟨100, 1⟩, ⟨100, 0⟩] none none).session_durations ∧
    ¬ ((0 : ℚ) < 0) := by
  constructor
  · norm_num [statsScan, resolveBounds, minDate, maxDate, filterRange, runScan, List.foldl,
      scanStep, initScan, dateOnly, usPerDay, addToDay, List.filter]
  · norm_num

/-- C3 (amended): for every binary contact stream sorted ascending by
timestamp (ties allowed and processed in arrival order), every Session
emitted by the session extraction in `calculate_statistics` has a duration of
at least 0 and at most 1440 minutes; the lower bound is not strict, since an
open and a close sharing one timestamp yield a duration of exactly 0. -/
theorem c3_session_durations_bounded (df : List Obs) (sd ed : Option Nat)
    (hsort : List.Pairwise (fun a b : Obs => a.Date ≤ b.Date) df)
    (hbin : ∀ o ∈ df, o.State = 0 ∨ o.State = 1) :
    ∀ d ∈ (statsScan df sd ed).session_durations, 0 ≤ d ∧ d ≤ 1440 := by
  simp only [statsScan, runScan, filterRange]
  refine scan_durations_bounded _ _ ?_ ?_ ?_
  · exact hsort.sublist (List.filter_sublist df)
  · intro d hd
    simp [initScan] at hd
  · intro ot hs
    simp [initScan] at hs

/-- C3 witness: a concrete sorted binary stream with one 1-minute session. -/
theorem c3_session_durations_bounded_witness :
    List.Pairwise (fun a b : Obs => a.Date ≤ b.Date) [⟨0, 1⟩, ⟨60000000, 0⟩] ∧
    (∀ o ∈ ([⟨0, 1⟩, ⟨60000000, 0⟩] : List Obs), o.State = 0 ∨ o.State = 1) ∧
    ∀ d ∈ (statsScan [⟨0, 1⟩, ⟨60000000, 0⟩] none none).session_durations,
      0 ≤ d ∧ d ≤ 1440 :=
  ⟨by decide, by decide,
    c3_session_durations_bounded [⟨0, 1⟩, ⟨60000000, 0⟩] none none (by decide) (by decide)⟩

/-- C4: on a `state=1` observation while a session is pending: a gap strictly
over 24 hours discards the pending session — no Session is emitted, no new
session is opened from the event, and the counter stays at 1 (the subsequent
close finds the extractor idle); a gap of at most 24 hours (including exactly
24h00m00s) leaves the pending session in place with no counter increment, so
consecutive `state=1` observations within 24h coalesce and yield exactly one
Session when eventually closed. -/
theorem c4_gap_rule (t1 t2 t3 : Nat) (h12 : t1 ≤ t2) (h23 : t2 ≤ t3) :
    (t1 + 86400000000 < t2 →
      runScan [⟨t1, 1⟩, ⟨t2, 1⟩, ⟨t3, 0⟩] = ⟨1, [], [], none⟩) ∧
    (t2 ≤ t1 + 86400000000 → t3 ≤ t1 + 86400000000 →
      runScan [⟨t1, 1⟩, ⟨t2, 1⟩, ⟨t3, 0⟩]
        = ⟨1, [(((t3 : ℚ) - (t1 : ℚ)) / 1000000) / 60],
            [(dateOnly t3, (((t3 : ℚ) - (t1 : ℚ)) / 1000000) / 60)], none⟩) := by
  have s1 : scanStep initScan ⟨t1, 1⟩
      = { initScan with open_time := some t1, open_sessions := 1 } :=
    scanStep_open_idle initScan ⟨t1, 1⟩ rfl rfl
  constructor
  · intro hfar
    simp only [runScan, List.foldl_cons, List.foldl_nil]
    rw [s1, scanStep_open_pending_far _ ⟨t2, 1⟩ t1 rfl rfl hfar,
      scanStep_close_idle _ ⟨t3, 0⟩ rfl rfl]
    rfl
  · intro hnear hdur
    simp only [runScan, List.foldl_cons, List.foldl_nil]
    rw [s1, scanStep_open_pending_near _ ⟨t2, 1⟩ t1 rfl rfl hnear,
      scanStep_close_pending_ok _ ⟨t3, 0⟩ t1 rfl rfl hdur]
    rfl

/-- C4 witness: a repeated open after exactly 24h00m01s is dropped entirely. -/
theorem c4_gap_rule_witness :
    (0 : Nat) ≤ 86401000000 ∧ (86401000000 : Nat) ≤ 86461000000 ∧
    (0 : Nat) + 86400000000 < 86401000000 ∧
    runScan [⟨0, 1⟩, ⟨86401000000, 1⟩, ⟨86461000000, 0⟩] = ⟨1, [], [], none⟩ :=
  ⟨by decide, by decide, by decide,
    (c4_gap_rule 0 86401000000 86461000000 (by decide) (by decide)).1 (by decide)⟩

/-- C7: for every binary stream, the bucketed open minutes total exactly the
emitted Session durations; and a session opening at 23:50 on day 0 and
closing at 00:10 on day 1 contributes its full 20 minutes to day 1's bucket
(the close date), not day 0's. -/
theorem c7_bucket_sum_eq_session_sum (df : List Obs) (sd ed : Option Nat)
    (hbin : ∀ o ∈ df, o.State = 0 ∨ o.State = 1) :
    (((dailyBuckets (statsScan df sd ed)).map (fun b => b.2.1)).sum
        = (statsScan df sd ed).session_durations.sum) ∧
    (runScan [⟨85800000000, 1⟩, ⟨87000000000, 0⟩]).daily_open_times
      = [(dateOnly 87000000000, 20)] := by
  constructor
  · have h := foldl_sum_invariant
      (filterRange df (resolveBounds df sd ed).1 (resolveBounds df sd ed).2) initScan
    have h0 : ((initScan.daily_open_times.map Prod.snd).sum : ℚ)
        - initScan.session_durations.sum = 0 := by norm_num [initScan]
    rw [h0] at h
    simp only [statsScan, runScan, dailyBuckets, List.map_map]
    have hcomp : ((fun b : Nat × ℚ × ℚ => b.2.1) ∘ (fun p : Nat × ℚ => (p.1, p.2, 1440 - p.2)))
        = (Prod.snd : Nat × ℚ → ℚ) := by
      funext p; rfl
    rw [hcomp]
    linarith [h]
  · norm_num [runScan, List.foldl, scanStep, initScan, dateOnly, usPerDay, addToDay]

/-- C7 witness: a concrete binary stream. -/
theorem c7_bucket_sum_eq_session_sum_witness :
    (∀ o ∈ ([⟨0, 1⟩, ⟨60000000, 0⟩] : List Obs), o.State = 0 ∨ o.State = 1) ∧
    ((dailyBuckets (statsScan [⟨0, 1⟩, ⟨60000000, 0⟩] none none)).map (fun b => b.2.1)).sum
      = (statsScan [⟨0, 1⟩, ⟨60000000, 0⟩] none none).session_durations.sum :=
  ⟨by decide,
    (c7_bucket_sum_eq_session_sum [⟨0, 1⟩, ⟨60000000, 0⟩] none none (by decide)).1⟩

/-- C1 (code divergence): in `plot_multiple_data` the statistics are computed
on the output of `add_fake_states`, not on the filtered stream alone: with
window [day 0 00:00:00.000000, day 0 23:59:59.999999] and filtered stream
[(01:00, closed), (02:00, open)], the synthesized boundary observations
survive the refilter inside `calculate_statistics` and change the summary
(`Mean Opening Sessions Per Day` becomes 2 instead of 0), so the returned
summary does not equal `calculate_statistics` of the filtered stream. -/
theorem c1_stats_depend_on_fake_states :
    plotMultipleContactStats [⟨3600000000, 0⟩, ⟨7200000000, 1⟩]
        (some 0) (some 86399999999) "x"
      ≠ some (calculate_statistics
          (filter_data_by_time [⟨3600000000, 0⟩, ⟨7200000000, 1⟩]
            (some 0) (some 86399999999))
          (some 0) (some 86399999999) "x") := by
  intro hcontra
  have h1 : (plotMultipleContactStats [⟨3600000000, 0⟩, ⟨7200000000, 1⟩]
        (some 0) (some 86399999999) "x").map StatisticsSummary.mean_open_sessions
      = some 2 := by
    norm_num [plotMultipleContactStats, filter_data_by_time, filterRange, List.filter,
      add_fake_states, dayStart, dayEnd, lastState, usPerDay, calculate_statistics,
      resolveBounds, statsScan, runScan, List.foldl, scanStep, initScan, dateOnly,
      addToDay, dailyBuckets, qmean]
  have h2 : (calculate_statistics
        (filter_data_by_time [⟨3600000000, 0⟩, ⟨7200000000, 1⟩]
          (some 0) (some 86399999999))
        (some 0) (some 86399999999) "x").mean_open_sessions = 0 := by
    norm_num [filter_data_by_time, filterRange, List.filter, calculate_statistics,
      resolveBounds, statsScan, runScan, List.foldl, scanStep, initScan, dateOnly,
      usPerDay, addToDay, dailyBuckets, qmean]
  rw [hcontra, Option.map_some'] at h1
  rw [h2] at h1
  simp at h1

/-- C5: `Mean Opening Sessions Per Day` is the open-session counter divided by
the number of DailyBuckets (days with at least one completed realistic
session), and 0 when no buckets exist; the counter counts every Idle→Pending
transition, so it can exceed the number of emitted Sessions — here a stream
with two opens yields one emitted Session, the second open still pending at
end of stream. -/
theorem c5_mean_open_sessions (df : List Obs) (sd ed : Option Nat) (name : String) :
    ((calculate_statistics df sd ed name).mean_open_sessions
      = if 0 < (dailyBuckets (statsScan df sd ed)).length
        then ((statsScan df sd ed).open_sessions : ℚ)
              / ((dailyBuckets (statsScan df sd ed)).length : ℚ)
        else 0) ∧
    (runScan [⟨0, 1⟩, ⟨60000000, 0⟩, ⟨120000000, 1⟩]).open_sessions = 2 ∧
    (runScan [⟨0, 1⟩, ⟨60000000, 0⟩, ⟨120000000, 1⟩]).session_durations.length = 1 := by
  refine ⟨rfl, ?_, ?_⟩ <;>
    norm_num [runScan, List.foldl, scanStep, initScan, dateOnly, usPerDay, addToDay]

/-- C6: with both window bounds present and a non-empty stream,
`add_fake_states` prepends one observation at the start day's 00:00:00.000
and appends one at the end day's 23:59:59.999999, both carrying the state of
the stream's last observation (not its first): [(T1,0),(T2,1)] becomes
[(W0,1),(T1,0),(T2,1),(W1,1)]. With no start bound, or with an empty stream,
the stream is returned unmodified. -/
theorem c6_add_fake_states (df : List Obs) (s e : Nat) (h : df ≠ []) :
    (add_fake_states df (some s) (some e)
      = some (⟨dayStart s, lastState df⟩ :: (df ++ [⟨dayEnd e, lastState df⟩]))) ∧
    (∀ ed2 : Option Nat, add_fake_states df none ed2 = some df) ∧
    (add_fake_states ([] : List Obs) (some s) (some e) = some []) ∧
    (add_fake_states [⟨3600000000, 0⟩, ⟨7200000000, 1⟩] (some 0) (some 0)
      = some [⟨0, 1⟩, ⟨3600000000, 0⟩, ⟨7200000000, 1⟩, ⟨86399999999, 1⟩]) := by
  refine ⟨?_, fun ed2 => rfl, rfl, ?_⟩
  · simp [add_fake_states, h]
  · norm_num [add_fake_states, dayStart, dayEnd, lastState, usPerDay]

/-- C6 witness: a concrete non-empty stream. -/
theorem c6_add_fake_states_witness :
    ([⟨3600000000, 0⟩, ⟨7200000000, 1⟩] : List Obs) ≠ [] ∧
    add_fake_states [⟨3600000000, 0⟩, ⟨7200000000, 1⟩] (some 0) (some 0)
      = some (⟨dayStart 0, lastState [⟨3600000000, 0⟩, ⟨7200000000, 1⟩]⟩ ::
          ([⟨3600000000, 0⟩, ⟨7200000000, 1⟩]
            ++ [⟨dayEnd 0, lastState [⟨3600000000, 0⟩, ⟨7200000000, 1⟩]⟩])) :=
  ⟨by decide,
    (c6_add_fake_states [⟨3600000000, 0⟩, ⟨7200000000, 1⟩] 0 0 (by decide)).1⟩

/-- C8: every DailyBucket's `Closed_Duration` equals `1440 − Open_Duration`
(so the two always sum to 1440), with no clamping: it is negative whenever
the day's accumulated open minutes exceed 1440, as on the concrete day
collecting two sessions totalling 2810 open minutes. -/
theorem c8_closed_minutes (df : List Obs) (sd ed : Option Nat) (b : Nat × ℚ × ℚ)
    (hb : b ∈ dailyBuckets (statsScan df sd ed)) :
    (b.2.2 = 1440 - b.2.1 ∧ b.2.1 + b.2.2 = 1440 ∧ (1440 < b.2.1 → b.2.2 < 0)) ∧
    dailyBuckets (runScan
        [⟨3600000000, 1⟩, ⟨89400000000, 0⟩, ⟨89700000000, 1⟩, ⟨172500000000, 0⟩])
      = [(1, 2810, -1370)] := by
  constructor
  · obtain ⟨p, hp, hbp⟩ := List.mem_map.mp hb
    subst hbp
    exact ⟨rfl, by ring, fun hlt => by simp only []; linarith⟩
  · norm_num [runScan, List.foldl, scanStep, initScan, dateOnly, usPerDay, addToDay,
      dailyBuckets]

/-- C8 witness: the first bucket of a concrete run. -/
theorem c8_closed_minutes_witness :
    ((1 : Nat), (2810 : ℚ), (-1370 : ℚ)) ∈ dailyBuckets (statsScan
        [⟨3600000000, 1⟩, ⟨89400000000, 0⟩, ⟨89700000000, 1⟩, ⟨172500000000, 0⟩]
        none none) ∧
    ((-1370 : ℚ) = 1440 - 2810 ∧ (2810 : ℚ) + -1370 = 1440 ∧
      ((1440 : ℚ) < 2810 → (-1370 : ℚ) < 0)) := by
  have hmem : ((1 : Nat), (2810 : ℚ), (-1370 : ℚ)) ∈ dailyBuckets (statsScan
      [⟨3600000000, 1⟩, ⟨89400000000, 0⟩, ⟨89700000000, 1⟩, ⟨172500000000, 0⟩]
      none none) := by
    norm_num [statsScan, resolveBounds, minDate, maxDate, filterRange, List.filter,
      runScan, List.foldl, scanStep, initScan, dateOnly, usPerDay, addToDay, dailyBuckets]
  exact ⟨hmem,
    (c8_closed_minutes
      [⟨3600000000, 1⟩, ⟨89400000000, 0⟩, ⟨89700000000, 1⟩, ⟨172500000000, 0⟩]
      none none ((1 : Nat), (2810 : ℚ), (-1370 : ℚ)) hmem).1⟩

/-- C9: with at least two summaries the reduction produces the field-wise
arithmetic mean of the four numeric fields, dropping `Accessory Name`,
`From`, `To` and `Number of Days`; `Mean Minutes Open Per Day` values 30 and
50 average to 40; with fewer than two summaries the reduction does not run. -/
theorem c9_overall_stats (l : List StatisticsSummary) :
    (1 < l.length →
      overall_stats l = some
        ⟨colMeanOpt (l.map StatisticsSummary.mean_open_minutes),
         colMeanOpt (l.map StatisticsSummary.mean_closed_minutes),
         (l.map StatisticsSummary.mean_open_sessions).sum / (l.length : ℚ),
         (l.map StatisticsSummary.mean_open_time_per_session).sum / (l.length : ℚ)⟩) ∧
    (l.length ≤ 1 → overall_stats l = none) ∧
    overall_stats [⟨"a", 0, 0, 1, some 30, some 1410, 1, 30⟩,
                   ⟨"b", 0, 0, 1, some 50, some 1390, 1, 50⟩]
      = some ⟨some 40, some 1400, 1, 40⟩ := by
  refine ⟨fun h => ?_, fun h => ?_, ?_⟩
  · rw [overall_stats, if_pos h]
  · rw [overall_stats, if_neg (by omega)]
  · norm_num [overall_stats, colMeanOpt, qmean, List.filterMap]

/-- C9 witness: the two-summary example. -/
theorem c9_overall_stats_witness :
    1 < ([⟨"a", 0, 0, 1, some 30, some 1410, 1, 30⟩,
          ⟨"b", 0, 0, 1, some 50, some 1390, 1, 50⟩] : List StatisticsSummary).length ∧
    overall_stats [⟨"a", 0, 0, 1, some 30, some 1410, 1, 30⟩,
                   ⟨"b", 0, 0, 1, some 50, some 1390, 1, 50⟩]
      = some
        ⟨colMeanOpt (([⟨"a", 0, 0, 1, some 30, some 1410, 1, 30⟩,
            ⟨"b", 0, 0, 1, some 50, some 1390, 1, 50⟩] :
              List StatisticsSummary).map StatisticsSummary.mean_open_minutes),
         colMeanOpt (([⟨"a", 0, 0, 1, some 30, some 1410, 1, 30⟩,
            ⟨"b", 0, 0, 1, some 50, some 1390, 1, 50⟩] :
              List StatisticsSummary).map StatisticsSummary.mean_closed_minutes),
         (([⟨"a", 0, 0, 1, some 30, some 1410, 1, 30⟩,
            ⟨"b", 0, 0, 1, some 50, some 1390, 1, 50⟩] :
              List StatisticsSummary).map StatisticsSummary.mean_open_sessions).sum / 2,
         (([⟨"a", 0, 0, 1, some 30, some 1410, 1, 30⟩,
            ⟨"b", 0, 0, 1, some 50, some 1390, 1, 50⟩] :
              List StatisticsSummary).map StatisticsSummary.mean_open_time_per_session).sum
            / 2⟩ :=
  ⟨by norm_num,
    (c9_overall_stats [⟨"a", 0, 0, 1, some 30, some 1410, 1, 30⟩,
        ⟨"b", 0, 0, 1, some 50, some 1390, 1, 50⟩]).1 (by norm_num)⟩

/-- C10: for a non-empty stream sorted ascending by timestamp whose
observations all lie inside the closed window (as holds for the output of
`filter_data_by_time`, third conjunct), `add_fake_states` returns the
synthesized start boundary, the original observations unchanged and in their
original order, then the synthesized end boundary — and that (n+2)-element
result is still sorted ascending by timestamp. -/
theorem c10_aligned_still_sorted (df : List Obs) (s e : Nat) (h : df ≠ [])
    (hsort : List.Pairwise (fun a b : Obs => a.Date ≤ b.Date) df)
    (hin : ∀ o ∈ df, s ≤ o.Date ∧ o.Date ≤ e) :
    (add_fake_states df (some s) (some e)
      = some (⟨dayStart s, lastState df⟩ :: (df ++ [⟨dayEnd e, lastState df⟩]))) ∧
    List.Pairwise (fun a b : Obs => a.Date ≤ b.Date)
      (⟨dayStart s, lastState df⟩ :: (df ++ [⟨dayEnd e, lastState df⟩])) ∧
    (∀ df0 : List Obs, ∀ o ∈ filter_data_by_time df0 (some s) (some e),
      s ≤ o.Date ∧ o.Date ≤ e) := by
  have hds : dayStart s ≤ s := Nat.div_mul_le_self s usPerDay
  have hde : e ≤ dayEnd e := by
    unfold dayEnd usPerDay
    omega
  refine ⟨by simp [add_fake_states, h], ?_, ?_⟩
  · rw [List.pairwise_cons]
    constructor
    · intro b hb
      rcases List.mem_append.mp hb with hb2 | hb2
      · exact le_trans hds (hin b hb2).1
      · have hbe : b = ⟨dayEnd e, lastState df⟩ := by simpa using hb2
        subst hbe
        obtain ⟨o, ho⟩ : ∃ o, o ∈ df := by
          cases df with
          | nil => exact absurd rfl h
          | cons x xs => exact ⟨x, List.mem_cons_self x xs⟩
        exact le_trans hds (le_trans (hin o ho).1 (le_trans (hin o ho).2 hde))
    · rw [List.pairwise_append]
      refine ⟨hsort, List.pairwise_singleton _ _, ?_⟩
      intro a ha b hb
      have hbe : b = ⟨dayEnd e, lastState df⟩ := by simpa using hb
      subst hbe
      exact le_trans (hin a ha).2 hde
  · intro df0 o ho
    simp only [filter_data_by_time, filterRange, List.mem_filter] at ho
    have hcond := ho.2
    simp only [Bool.and_eq_true, decide_eq_true_eq] at hcond
    exact hcond

/-- C10 witness: a concrete filtered, sorted, non-empty stream. -/
theorem c10_aligned_still_sorted_witness :
    ([⟨3600000000, 0⟩, ⟨7200000000, 1⟩] : List Obs) ≠ [] ∧
    List.Pairwise (fun a b : Obs => a.Date ≤ b.Date)
      [⟨3600000000, 0⟩, ⟨7200000000, 1⟩] ∧
    (∀ o ∈ ([⟨3600000000, 0⟩, ⟨7200000000, 1⟩] : List Obs),
      0 ≤ o.Date ∧ o.Date ≤ 86399999999) ∧
    List.Pairwise (fun a b : Obs => a.Date ≤ b.Date)
      (⟨dayStart 0, lastState [⟨3600000000, 0⟩, ⟨7200000000, 1⟩]⟩ ::
        ([⟨3600000000, 0⟩, ⟨7200000000, 1⟩]
          ++ [⟨dayEnd 86399999999, lastState [⟨3600000000, 0⟩, ⟨7200000000, 1⟩]⟩])) :=
  ⟨by decide, by decide, by decide,
    (c10_aligned_still_sorted [⟨3600000000, 0⟩, ⟨7200000000, 1⟩] 0 86399999999
      (by decide) (by decide) (by decide)).2.1⟩

end ContactPlotter
